import Mathlib

set_option maxRecDepth 8000
set_option maxHeartbeats 1600000

/-!
Verification of the name-tag custom element (src/index.js).

The element is embedded shallowly: an element instance is a structure
holding its DOM attributes (an association list), the markup of its shadow
root, the list of adopted style sheets, a count of renders performed so
far, and a connected flag.  DOM strings are Lean strings; a missing
attribute is `none`.  The platform behaviour relevant to the source is
modelled exactly where the source relies on it: `setAttribute` on an
observed attribute synchronously fires `attributeChangedCallback` once per
value transition, and the change callback can fail (JavaScript would throw
a TypeError) when `render` reads an absent `greeting`, because
`x.greeting.toUpperCase()` dereferences `null` there.
-/

/-- JavaScript `String.prototype.toUpperCase`, restricted to the ASCII
letters: each lowercase ASCII letter is replaced by its uppercase form,
every other character is kept.  The Unicode special case mappings of the
real function (such as U+017F becoming S) are not modelled; every theorem
below either exercises the map at ASCII inputs only or holds for an
arbitrary character map in its place, so no statement depends on the
behaviour outside ASCII. -/
def jsUpperChar (c : Char) : Char :=
  if c = 'a' then 'A' else if c = 'b' then 'B' else if c = 'c' then 'C'
  else if c = 'd' then 'D' else if c = 'e' then 'E' else if c = 'f' then 'F'
  else if c = 'g' then 'G' else if c = 'h' then 'H' else if c = 'i' then 'I'
  else if c = 'j' then 'J' else if c = 'k' then 'K' else if c = 'l' then 'L'
  else if c = 'm' then 'M' else if c = 'n' then 'N' else if c = 'o' then 'O'
  else if c = 'p' then 'P' else if c = 'q' then 'Q' else if c = 'r' then 'R'
  else if c = 's' then 'S' else if c = 't' then 'T' else if c = 'u' then 'U'
  else if c = 'v' then 'V' else if c = 'w' then 'W' else if c = 'x' then 'X'
  else if c = 'y' then 'Y' else if c = 'z' then 'Z' else c

/-- Uppercasing a whole string, character by character. -/
def jsToUpper (s : String) : String :=
  String.mk (s.data.map jsUpperChar)

/-- The template text of `render` that precedes the interpolated
`${x.greeting.toUpperCase()}`. -/
def renderPre : String :=
  "\n  <div part=\"header\" class=\"header\">\n    <h3 part=\"greeting\">"

/-- The template text of `render` that follows the interpolation. -/
def renderPost : String :=
  "</h3>\n    <h4 part=\"message\">my name is</h4>\n  </div>\n\n  <div part=\"body\" class=\"body\">\n    <slot></slot>\n  </div>\n\n  <div part=\"footer\" class=\"footer\"></div>\n"

/-- The markup produced by the `render` template for a present greeting
string: the fixed template with the uppercased greeting interpolated
verbatim. -/
def renderHTML (greeting : String) : String :=
  renderPre ++ jsToUpper greeting ++ renderPost

/-- The CSS text passed to `styles.replaceSync` in src/index.js. -/
def stylesCSS : String :=
  "\n  :host \x7b\n    --default-color: red;\n    --default-radius: 6px;\n    --default-depth: 5px;\n\n    display: inline-block;\n    contain: content;\n    color: white;\n    background: var(--color, var(--default-color));\n    border-radius: var(--radius, var(--default-radius));\n    min-width: 325px;\n    text-align: center;\n    box-shadow: 0 0 var(--depth, var(--default-depth)) rgba(0,0,0,.5);\n  \x7d\n\n  .header \x7b\n    margin: 16px 0;\n    position: relative;\n  \x7d\n\n  h3 \x7b\n    font-weight: bold;\n    font-family: sans-serif;\n    letter-spacing: 4px;\n    font-size: 32px;\n    margin: 0;\n    padding: 0;\n  \x7d\n\n  h4 \x7b\n    font-family: sans-serif;\n    font-size: 18px;\n    margin: 0;\n    padding: 0;\n  \x7d\n\n  .body \x7b\n    background: white;\n    color: black;\n    padding: 32px 8px;\n    font-size: 42px;\n    font-family: cursive;\n  \x7d\n\n  .footer \x7b\n    height: 16px;\n    background: var(--color, var(--default-color));\n    border-radius: 0 0 var(--radius, var(--default-radius)) var(--radius, var(--default-radius));\n  \x7d\n"

/-- A constructed style sheet object.  The `id` field records which
allocation produced the sheet, so that sharing by reference is visible in
the model. -/
structure CSSStyleSheet where
  id : Nat
  cssText : String
deriving DecidableEq

/-- The host process state: how many style sheet objects have been
constructed so far. -/
structure Host where
  sheetAllocs : Nat
deriving DecidableEq

/-- The `new CSSStyleSheet()` constructor: allocates a fresh, empty sheet
and bumps the process allocation count. -/
def newCSSStyleSheet (h : Host) : Host × CSSStyleSheet :=
  ({ sheetAllocs := h.sheetAllocs + 1 }, { id := h.sheetAllocs, cssText := "" })

/-- The `replaceSync` method: replaces the whole CSS text of a sheet. -/
def CSSStyleSheet.replaceSync (sheet : CSSStyleSheet) (text : String) : CSSStyleSheet :=
  { sheet with cssText := text }

/-- A fresh process before the module is loaded. -/
def initialHost : Host :=
  { sheetAllocs := 0 }

/-- Module load evaluates `const styles = new CSSStyleSheet()` followed by
`styles.replaceSync(...)`, once per process. -/
def moduleLoad : Host × CSSStyleSheet :=
  (( newCSSStyleSheet initialHost).1, ((newCSSStyleSheet initialHost).2).replaceSync stylesCSS)

/-- The process state after the module has loaded. -/
def hostAfterLoad : Host :=
  moduleLoad.1

/-- The module-level `styles` constant: the one sheet constructed at
module load. -/
def styles : CSSStyleSheet :=
  moduleLoad.2

/-- A name-tag element instance: its DOM attributes, the markup of its
shadow root, the adopted style sheets of the shadow root, the number of
renders performed so far, and whether it is connected to a document. -/
structure NameTag where
  attrs : List (String × String)
  shadowHTML : String
  adoptedSheets : List CSSStyleSheet
  renderCount : Nat
  connected : Bool
deriving DecidableEq

/-- `static get observedAttributes()`. -/
def observedAttributes : List String :=
  ["greeting"]

/-- DOM `getAttribute`: the current value of the named attribute, `none`
when the attribute is absent. -/
def getAttribute (x : NameTag) (name : String) : Option String :=
  x.attrs.lookup name

/-- The `greeting` property getter: `return this.getAttribute('greeting')`. -/
def NameTag.greeting (x : NameTag) : Option String :=
  getAttribute x "greeting"

/-- The `render` arrow function: it reads `x.greeting` and uppercases it.
When the attribute is absent the getter yields `null` and
`null.toUpperCase()` throws, modelled by `none`. -/
def render (x : NameTag) : Option String :=
  (NameTag.greeting x).map renderHTML

/-- `attributeChangedCallback(name, oldValue, newValue)`: the body ignores
its arguments and assigns `this.shadowRoot.innerHTML = render(this)`,
replacing the whole shadow markup.  The render counter records the
replacement. -/
def attributeChangedCallback (x : NameTag) (_name : String)
    (_oldValue _newValue : Option String) : Option NameTag :=
  (render x).map fun html =>
    { x with shadowHTML := html, renderCount := x.renderCount + 1 }

/-- Updating one attribute in the attribute list, keeping the position of
an existing entry and appending a new entry otherwise. -/
def setAttrList : List (String × String) → String → String → List (String × String)
  | [], n, v => [(n, v)]
  | (k, w) :: rest, n, v =>
      if k = n then (n, v) :: rest else (k, w) :: setAttrList rest n v

/-- DOM `setAttribute` together with the platform reaction: the attribute
is written, and when it is an observed attribute the element is notified
once, for this value transition, via `attributeChangedCallback`. -/
def setAttributeOp (x : NameTag) (name value : String) : Option NameTag :=
  let oldValue := getAttribute x name
  let x' : NameTag := { x with attrs := setAttrList x.attrs name value }
  if name ∈ observedAttributes then
    attributeChangedCallback x' name oldValue (some value)
  else
    some x'

/-- The `greeting` property setter:
`set greeting(value) { this.setAttribute('greeting', value) }`. -/
def setGreeting (x : NameTag) (value : String) : Option NameTag :=
  setAttributeOp x "greeting" value

/-- `connectedCallback()`: when the current greeting is falsy (absent or
the empty string) the default value is assigned through the property
setter. -/
def connectedCallback (x : NameTag) : Option NameTag :=
  match NameTag.greeting x with
  | none => setGreeting x "Hello"
  | some g => if g = "" then setGreeting x "Hello" else some x

/-- The constructor: attaches an open shadow root (initially empty) and
adopts the shared `styles` sheet, appending it to the (empty) existing
adopted list. -/
def newNameTag : NameTag :=
  { attrs := []
    shadowHTML := ""
    adoptedSheets := [] ++ [styles]
    renderCount := 0
    connected := false }

/-- Constructing an instance from the host: no style sheet is allocated,
the shared module-level sheet is reused. -/
def constructNameTag (h : Host) : Host × NameTag :=
  (h, newNameTag)

/-- Attaching the element to a live document: the platform marks it
connected and runs `connectedCallback`. -/
def connectOp (x : NameTag) : Option NameTag :=
  connectedCallback { x with connected := true }

/-- Creating an element and attaching it to a document: an element written
with a `greeting` attribute receives that attribute (with the observed
attribute notification) before `connectedCallback` runs; an element
without the attribute is attached directly. -/
def attach (init : Option String) : Option NameTag :=
  match init with
  | none => connectOp newNameTag
  | some v => (setAttributeOp newNameTag "greeting" v).bind connectOp

/-- A sequence of writes to the `greeting` property after attachment. -/
def runSets (x : NameTag) (vs : List String) : Option NameTag :=
  vs.foldlM setGreeting x

/-- Lowercasing one character (inverse direction of `jsUpperChar`), used to
compare markup case-insensitively, the way HTML tag names are matched. -/
def lcChar (c : Char) : Char :=
  if 65 ≤ c.toNat ∧ c.toNat ≤ 90 then Char.ofNat (c.toNat + 32) else c

/-- The character data of a string, folded to lowercase. -/
def lcData (s : String) : List Char :=
  s.data.map lcChar

/-- Boolean test that a list starts with the given pattern. -/
def isPre : List Char → List Char → Bool
  | [], _ => true
  | _ :: _, [] => false
  | p :: ps, c :: cs => p == c && isPre ps cs

/-- The number of positions at which the pattern occurs in the list. -/
def cntS (pat : List Char) : List Char → Nat
  | [] => 0
  | c :: rest => (if isPre pat (c :: rest) then 1 else 0) + cntS pat rest

/-- Boolean occurrence test for a pattern inside a list. -/
def hasSub (pat : List Char) : List Char → Bool
  | [] => isPre pat []
  | c :: rest => isPre pat (c :: rest) || hasSub pat rest

/-- Boolean occurrence test for a pattern string inside a string. -/
def containsSub (s pat : String) : Bool :=
  hasSub pat.data s.data

/-- The opening of a slot tag. -/
def slotPat : List Char :=
  ['<', 's', 'l', 'o', 't']

/-- The number of slot tags in a markup string, matching the tag name
case-insensitively as HTML does. -/
def slotCountCI (s : String) : Nat :=
  cntS slotPat (lcData s)

/-- The rest of the list after the first occurrence of a marker, `none`
when the marker does not occur. -/
def afterM (marker : List Char) : List Char → Option (List Char)
  | [] => none
  | c :: rest =>
      if isPre marker (c :: rest) then some (List.drop marker.length (c :: rest))
      else afterM marker rest

/-- The part of the list before the first occurrence of a marker, `none`
when the marker does not occur. -/
def beforeM (marker : List Char) : List Char → Option (List Char)
  | [] => none
  | c :: rest =>
      if isPre marker (c :: rest) then some []
      else (beforeM marker rest).map fun l => c :: l

/-- The text strictly between the first occurrence of `pre` and the next
occurrence of `post` in `s`. -/
def textBetween (pre post s : String) : Option String :=
  ((afterM pre.data s.data).bind (beforeM post.data)).map fun l => String.mk l

/-- The text content of the header h3 node of a rendered markup string. -/
def headerTextOf (html : String) : Option String :=
  textBetween "<h3 part=\"greeting\">" "</h3>" html

/-- The text content of the static caption h4 node of a rendered markup
string. -/
def captionTextOf (html : String) : Option String :=
  textBetween "<h4 part=\"message\">" "</h4>" html

/-- The content of the footer div of a rendered markup string. -/
def footerInnerOf (html : String) : Option String :=
  textBetween "<div part=\"footer\" class=\"footer\">" "</div>" html

/-- HTML escaping of one character, as a sanitizing renderer would apply
to text content. -/
def escChar (c : Char) : String :=
  if c = '<' then "&lt;" else if c = '>' then "&gt;"
  else if c = '&' then "&amp;" else if c = '"' then "&quot;"
  else String.singleton c

/-- HTML escaping of a whole string. -/
def htmlEscape (s : String) : String :=
  s.data.foldl (fun acc c => acc ++ escChar c) ""

/-- Spec view, header region: a header div showing the uppercased greeting
text in an h3 plus the static caption "my name is" in an h4, each with its
part identifier. -/
def headerRegion (g : String) : String :=
  "<div part=\"header\" class=\"header\">\n    <h3 part=\"greeting\">" ++ jsToUpper g
    ++ "</h3>\n    <h4 part=\"message\">my name is</h4>\n  </div>"

/-- Spec view, body region: a body div containing a single
content-projection point. -/
def bodyRegion : String :=
  "<div part=\"body\" class=\"body\">\n    <slot></slot>\n  </div>"

/-- Spec view, footer region: an empty footer div reserved for decorative
styling. -/
def footerRegion : String :=
  "<div part=\"footer\" class=\"footer\"></div>"

/-- Spec view of the rendering algorithm: the fixed three-region structure,
header then body then footer, joined by the whitespace of the template. -/
def threeRegions (g : String) : String :=
  "\n  " ++ headerRegion g ++ "\n\n  " ++ bodyRegion ++ "\n\n  " ++ footerRegion ++ "\n"

/-- A concrete unattached element carrying the greeting attribute value
Hola, as produced by parsing markup before any notification fired. -/
def holaTag : NameTag :=
  { attrs := [("greeting", "Hola")]
    shadowHTML := ""
    adoptedSheets := [styles]
    renderCount := 0
    connected := false }

/-- The element `holaTag` after one change notification has rendered it. -/
def holaRendered : NameTag :=
  { attrs := [("greeting", "Hola")]
    shadowHTML := renderHTML "Hola"
    adoptedSheets := [styles]
    renderCount := 1
    connected := false }

/-- Two strings with the same character data are equal. -/
theorem strExt (a b : String) (h : a.data = b.data) : a = b := by
  cases a
  cases b
  exact congrArg String.mk h

/-- The character data of an appended string. -/
theorem strDataApp (a b : String) : (a ++ b).data = a.data ++ b.data := by
  cases a
  cases b
  rfl

/-- Looking up the key just written by `setAttrList` yields the new value. -/
theorem lookup_setAttrList (l : List (String × String)) (n v : String) :
    List.lookup n (setAttrList l n v) = some v := by
  induction l with
  | nil => simp [setAttrList, List.lookup]
  | cons p t ih =>
      obtain ⟨k, w⟩ := p
      by_cases h : k = n
      · subst h
        simp [setAttrList, List.lookup]
      · simp [setAttrList, h, List.lookup, beq_eq_false_iff_ne.mpr (Ne.symm h), ih]

/-- Writing the `greeting` property: the attribute is updated and the
observed-attribute notification re-renders the shadow root once. -/
theorem setGreeting_eq (x : NameTag) (v : String) :
    setGreeting x v = some { x with attrs := setAttrList x.attrs "greeting" v,
                                    shadowHTML := renderHTML v,
                                    renderCount := x.renderCount + 1 } := by
  cases x with
  | mk attrs sh sheets rc conn =>
      simp [setGreeting, setAttributeOp, observedAttributes, attributeChangedCallback,
            render, NameTag.greeting, getAttribute, lookup_setAttrList]

/-- The greeting getter ignores the connected flag. -/
theorem greeting_connected (x : NameTag) (b : Bool) :
    NameTag.greeting { x with connected := b } = NameTag.greeting x := by
  cases x
  rfl

/-- Attachment of an element whose greeting is absent or empty: the
default value is assigned through the property setter, re-rendering once. -/
theorem connectOp_default (x : NameTag)
    (h : NameTag.greeting x = none ∨ NameTag.greeting x = some "") :
    connectOp x = some { x with connected := true,
                                attrs := setAttrList x.attrs "greeting" "Hello",
                                shadowHTML := renderHTML "Hello",
                                renderCount := x.renderCount + 1 } := by
  unfold connectOp connectedCallback
  rw [greeting_connected]
  rcases h with h | h
  · rw [h]
    exact setGreeting_eq _ "Hello"
  · rw [h]
    show (if ("" : String) = "" then setGreeting { x with connected := true } "Hello"
          else some { x with connected := true }) = _
    rw [if_pos rfl]
    exact setGreeting_eq _ "Hello"

/-- Attachment of an element whose greeting is a non-empty string: nothing
is assigned and no render happens during attachment. -/
theorem connectOp_keep (x : NameTag) (g : String)
    (hg : NameTag.greeting x = some g) (hne : g ≠ "") :
    connectOp x = some { x with connected := true } := by
  unfold connectOp connectedCallback
  rw [greeting_connected, hg]
  show (if g = "" then setGreeting { x with connected := true } "Hello"
        else some { x with connected := true }) = _
  rw [if_neg hne]

/-- A prefix test with a first-character mismatch fails. -/
theorem isPre_head_ne (p c : Char) (ps l : List Char) (h : p ≠ c) :
    isPre (p :: ps) (c :: l) = false := by
  simp [isPre, h]

/-- When the pattern fits inside the first list, appending a second list
does not change the prefix test. -/
theorem isPre_append_of_le (p l b : List Char) (h : p.length ≤ l.length) :
    isPre p (l ++ b) = isPre p l := by
  induction p generalizing l with
  | nil => simp [isPre]
  | cons x xs ih =>
      cases l with
      | nil => simp at h
      | cons y ys =>
          simp only [List.cons_append, isPre, List.append_eq]
          rw [ih ys (by simpa using h)]

/-- A successful prefix test survives appending on the right. -/
theorem isPre_append_true (p l b : List Char) (h : isPre p l = true) :
    isPre p (l ++ b) = true := by
  induction p generalizing l with
  | nil => simp [isPre]
  | cons x xs ih =>
      cases l with
      | nil => simp [isPre] at h
      | cons y ys =>
          simp only [List.cons_append, isPre, Bool.and_eq_true, beq_iff_eq] at h ⊢
          exact ⟨h.1, ih ys h.2⟩

/-- Occurrence counting splits over an append when no occurrence crosses
the boundary: each position of the first list either has room for the
whole pattern inside the first list or is no match at all. -/
theorem cntS_append (p a b : List Char)
    (H : ∀ k, k < a.length → p.length + k ≤ a.length ∨
         isPre p (List.drop k a ++ b) = false) :
    cntS p (a ++ b) = cntS p a + cntS p b := by
  induction a with
  | nil => simp [cntS]
  | cons c t ih =>
      have hpre : isPre p ((c :: t) ++ b) = isPre p (c :: t) := by
        rcases H 0 (by simp) with h | h
        · exact isPre_append_of_le p (c :: t) b (by simpa using h)
        · simp only [List.drop_zero] at h
          rw [h]
          by_cases h2 : isPre p (c :: t) = true
          · have h3 := isPre_append_true p (c :: t) b h2
            rw [h3] at h
            exact absurd h (by simp)
          · simp only [Bool.not_eq_true] at h2
            rw [h2]
      have ih' : cntS p (t ++ b) = cntS p t + cntS p b := by
        apply ih
        intro k hk
        have hH := H (k + 1) (by simp; omega)
        rcases hH with h | h
        · left
          simp only [List.length_cons] at h
          omega
        · right
          simpa [List.drop_succ_cons] using h
      calc cntS p ((c :: t) ++ b)
          = (if isPre p (c :: (t ++ b)) then 1 else 0) + cntS p (t ++ b) := rfl
        _ = (if isPre p (c :: t) then 1 else 0) + (cntS p t + cntS p b) := by
              rw [← List.cons_append, hpre, ih']
        _ = cntS p (c :: t) + cntS p b := by
              rw [show cntS p (c :: t)
                    = (if isPre p (c :: t) then 1 else 0) + cntS p t from rfl]
              omega

/-- No suffix of fewer than five characters, continued by the lowered tail
of the render template, starts a slot tag: the tail begins with a closing
h3 tag. -/
theorem short_no_slot (s : List Char) (hs : s.length ≤ 4) :
    isPre slotPat (s ++ renderPost.data.map lcChar) = false := by
  have hnil : isPre slotPat (renderPost.data.map lcChar) = false := by decide
  have h0 : isPre ['s', 'l', 'o', 't'] (renderPost.data.map lcChar) = false := by decide
  have h1 : isPre ['l', 'o', 't'] (renderPost.data.map lcChar) = false := by decide
  have h2 : isPre ['o', 't'] (renderPost.data.map lcChar) = false := by decide
  have h3 : isPre ['t'] (renderPost.data.map lcChar) = false := by decide
  match s with
  | [] =>
      rw [List.nil_append]
      exact hnil
  | [c] =>
      show ('<' == c && isPre ['s', 'l', 'o', 't'] (renderPost.data.map lcChar)) = false
      rw [h0, Bool.and_false]
  | [c, d] =>
      show ('<' == c && ('s' == d
            && isPre ['l', 'o', 't'] (renderPost.data.map lcChar))) = false
      rw [h1, Bool.and_false, Bool.and_false]
  | [c, d, e] =>
      show ('<' == c && ('s' == d && ('l' == e
            && isPre ['o', 't'] (renderPost.data.map lcChar)))) = false
      rw [h2, Bool.and_false, Bool.and_false, Bool.and_false]
  | [c, d, e, f] =>
      show ('<' == c && ('s' == d && ('l' == e && ('o' == f
            && isPre ['t'] (renderPost.data.map lcChar))))) = false
      rw [h3, Bool.and_false, Bool.and_false, Bool.and_false, Bool.and_false]
  | c :: d :: e :: f :: g5 :: t =>
      exfalso
      simp only [List.length_cons] at hs
      omega

/-- Prepending the lowered head of the render template does not add slot
tags: its final characters cannot begin one and it contains none. -/
theorem cntS_slot_pre (b : List Char) :
    cntS slotPat (renderPre.data.map lcChar ++ b) = cntS slotPat b := by
  have hlen : (renderPre.data.map lcChar).length = 62 := by decide
  rw [cntS_append slotPat (renderPre.data.map lcChar) b]
  · rw [show cntS slotPat (renderPre.data.map lcChar) = 0 from by decide]
    exact Nat.zero_add _
  · intro k hk
    rw [hlen] at hk
    by_cases h5 : k ≤ 57
    · left
      rw [hlen, show slotPat.length = 5 from rfl]
      omega
    · right
      have h58 : 58 ≤ k := by omega
      interval_cases k
      · rw [show List.drop 58 (renderPre.data.map lcChar) = ['n', 'g', '"', '>'] from by decide]
        exact isPre_head_ne '<' 'n' _ _ (by decide)
      · rw [show List.drop 59 (renderPre.data.map lcChar) = ['g', '"', '>'] from by decide]
        exact isPre_head_ne '<' 'g' _ _ (by decide)
      · rw [show List.drop 60 (renderPre.data.map lcChar) = ['"', '>'] from by decide]
        exact isPre_head_ne '<' '"' _ _ (by decide)
      · rw [show List.drop 61 (renderPre.data.map lcChar) = ['>'] from by decide]
        exact isPre_head_ne '<' '>' _ _ (by decide)

/-- Appending the lowered tail of the render template adds exactly the one
slot tag of the body region. -/
theorem cntS_slot_post (m : List Char) :
    cntS slotPat (m ++ renderPost.data.map lcChar) = cntS slotPat m + 1 := by
  rw [cntS_append slotPat m (renderPost.data.map lcChar)]
  · rw [show cntS slotPat (renderPost.data.map lcChar) = 1 from by decide]
  · intro k hk
    by_cases h5 : 5 + k ≤ m.length
    · left
      rw [show slotPat.length = 5 from rfl]
      omega
    · right
      apply short_no_slot
      rw [List.length_drop]
      omega

/-- The rendered markup contains exactly one slot tag more than the
uppercased greeting text that was interpolated into it, counted
case-insensitively.  This decomposition holds for every interpolated
string and does not depend on any property of the uppercase map. -/
theorem slotCountCI_renderHTML (g : String) :
    slotCountCI (renderHTML g) = 1 + slotCountCI (jsToUpper g) := by
  unfold slotCountCI lcData renderHTML
  rw [strDataApp, strDataApp]
  rw [List.map_append, List.map_append]
  rw [List.append_assoc, cntS_slot_pre, cntS_slot_post]
  omega

/-- Refinement of the rendering algorithm: the markup produced by the
source template is exactly the three-region structure described by the
spec. -/
theorem renderHTML_eq_threeRegions (g : String) : renderHTML g = threeRegions g := by
  unfold renderHTML threeRegions headerRegion bodyRegion footerRegion
  rw [show renderPre
        = "\n  " ++ "<div part=\"header\" class=\"header\">\n    <h3 part=\"greeting\">"
      from by decide]
  rw [show renderPost
        = "</h3>\n    <h4 part=\"message\">my name is</h4>\n  </div>"
          ++ ("\n\n  " ++ ("<div part=\"body\" class=\"body\">\n    <slot></slot>\n  </div>"
          ++ ("\n\n  " ++ ("<div part=\"footer\" class=\"footer\"></div>" ++ "\n"))))
      from by decide]
  simp only [String.append_assoc]

/-- The greeting getter after an attribute write through `setAttrList`. -/
theorem greeting_after_set (a : List (String × String)) (s : String)
    (l : List CSSStyleSheet) (r : Nat) (b : Bool) (v : String) :
    NameTag.greeting { attrs := setAttrList a "greeting" v, shadowHTML := s,
                       adoptedSheets := l, renderCount := r, connected := b } = some v := by
  simp [NameTag.greeting, getAttribute, lookup_setAttrList]

/-- Any sequence of greeting property writes succeeds, leaves the adopted
style sheets untouched, and ends in a state that still has a greeting
attribute; when the writes are non-trivial the final markup is the render
of the last written value. -/
theorem runSets_invariant (vs : List String) (x : NameTag) (g : String)
    (hg : NameTag.greeting x = some g) (hsh : x.shadowHTML = renderHTML g) :
    ∃ y g2, runSets x vs = some y ∧ NameTag.greeting y = some g2
      ∧ y.shadowHTML = renderHTML g2 ∧ (g2 = g ∨ g2 ∈ vs)
      ∧ y.adoptedSheets = x.adoptedSheets := by
  induction vs generalizing x g with
  | nil => exact ⟨x, g, rfl, hg, hsh, Or.inl rfl, rfl⟩
  | cons v t ih =>
      cases x with
      | mk a s l r b =>
          have hstep := setGreeting_eq { attrs := a, shadowHTML := s, adoptedSheets := l,
                                         renderCount := r, connected := b } v
          have hrun : runSets { attrs := a, shadowHTML := s, adoptedSheets := l,
                                renderCount := r, connected := b } (v :: t)
              = runSets { attrs := setAttrList a "greeting" v, shadowHTML := renderHTML v,
                          adoptedSheets := l, renderCount := r + 1, connected := b } t := by
            show List.foldlM setGreeting _ (v :: t) = _
            rw [List.foldlM_cons, hstep]
            rfl
          obtain ⟨y, g2, hy, hgy, hshy, hmem, hsheets⟩ :=
            ih { attrs := setAttrList a "greeting" v, shadowHTML := renderHTML v,
                 adoptedSheets := l, renderCount := r + 1, connected := b } v
               (greeting_after_set a (renderHTML v) l (r + 1) b v) rfl
          refine ⟨y, g2, ?_, hgy, hshy, ?_, hsheets⟩
          · rw [hrun, hy]
          · rcases hmem with h | h
            · exact Or.inr (by simp [h])
            · exact Or.inr (by simp [h])

/-- Computed form of attaching a fresh element with no greeting attribute. -/
theorem attach_none_eq :
    attach none = some { attrs := [("greeting", "Hello")], shadowHTML := renderHTML "Hello",
                         adoptedSheets := [styles], renderCount := 1, connected := true } := by
  show connectOp newNameTag = _
  rw [connectOp_default newNameTag (Or.inl rfl)]
  rfl

/-- Computed form of attaching an element whose markup carried a non-empty
greeting attribute: the parser write renders once, attachment keeps it. -/
theorem attach_some_eq (v : String) (hv : v ≠ "") :
    attach (some v) = some { attrs := [("greeting", v)], shadowHTML := renderHTML v,
                             adoptedSheets := [styles], renderCount := 1, connected := true } := by
  show (setAttributeOp newNameTag "greeting" v).bind connectOp = _
  rw [show setAttributeOp newNameTag "greeting" v = setGreeting newNameTag v from rfl,
      setGreeting_eq]
  show connectOp { attrs := setAttrList [] "greeting" v, shadowHTML := renderHTML v,
                   adoptedSheets := [styles], renderCount := 1, connected := false } = _
  rw [connectOp_keep _ v (greeting_after_set [] (renderHTML v) [styles] 1 false v) hv]
  rfl

/-- Computed form of attaching an element whose markup carried an empty
greeting attribute: the parser write renders once, then the default
assignment renders again. -/
theorem attach_empty_eq :
    attach (some "") = some { attrs := [("greeting", "Hello")],
                              shadowHTML := renderHTML "Hello",
                              adoptedSheets := [styles], renderCount := 2, connected := true } := by
  show (setAttributeOp newNameTag "greeting" "").bind connectOp = _
  rw [show setAttributeOp newNameTag "greeting" "" = setGreeting newNameTag "" from rfl,
      setGreeting_eq]
  show connectOp { attrs := setAttrList [] "greeting" "", shadowHTML := renderHTML "",
                   adoptedSheets := [styles], renderCount := 1, connected := false } = _
  rw [connectOp_default _ (Or.inr (greeting_after_set [] (renderHTML "") [styles] 1 false ""))]
  rfl

/-- Attachment always succeeds and never touches the adopted style
sheets. -/
theorem connectOp_sheets (x : NameTag) :
    (connectOp x).map (fun y => y.adoptedSheets) = some x.adoptedSheets := by
  match h : NameTag.greeting x with
  | none =>
      rw [connectOp_default x (Or.inl h)]
      rfl
  | some g =>
      by_cases hg : g = ""
      · subst hg
        rw [connectOp_default x (Or.inr h)]
        rfl
      · rw [connectOp_keep x g h hg]
        rfl

/-- Greeting property writes never touch the adopted style sheets. -/
theorem runSets_sheets (vs : List String) (x : NameTag) :
    (runSets x vs).map (fun y => y.adoptedSheets) = some x.adoptedSheets := by
  induction vs generalizing x with
  | nil => rfl
  | cons v t ih =>
      show (List.foldlM setGreeting x (v :: t)).map (fun y => y.adoptedSheets) = _
      rw [List.foldlM_cons, setGreeting_eq]
      show (runSets { x with attrs := setAttrList x.attrs "greeting" v,
                             shadowHTML := renderHTML v,
                             renderCount := x.renderCount + 1 } t).map
             (fun y => y.adoptedSheets) = some x.adoptedSheets
      rw [ih]

/-- Claim C1: for every string s, including the empty string and
non-ASCII strings, setting the greeting property of a NameTag instance to
s and then reading the greeting property returns s unchanged; the property
getter is exactly an attribute read, the property setter is exactly an
attribute write, with no validation, coercion or default substitution in
the setter. -/
theorem claim_C1_greeting_alias :
    (∀ x : NameTag, NameTag.greeting x = getAttribute x "greeting")
    ∧ (∀ (x : NameTag) (s : String), setGreeting x s = setAttributeOp x "greeting" s)
    ∧ (∀ (x : NameTag) (s : String),
        (setGreeting x s).map NameTag.greeting = some (some s)) := by
  refine ⟨fun x => rfl, fun x s => rfl, fun x s => ?_⟩
  cases x with
  | mk a sh l r b =>
      rw [setGreeting_eq]
      show some (NameTag.greeting _) = _
      rw [greeting_after_set]

/-- Claim C2: an instance whose greeting attribute is absent or empty at
the moment it is attached reads back the default greeting Hello after
attachment; an instance attached with a non-empty greeting keeps its
value. -/
theorem claim_C2_attach_default :
    (∀ x : NameTag, (NameTag.greeting x = none ∨ NameTag.greeting x = some "") →
      ∃ y, connectOp x = some y ∧ NameTag.greeting y = some "Hello")
    ∧ (∀ (x : NameTag) (g : String), NameTag.greeting x = some g → g ≠ "" →
      ∃ y, connectOp x = some y ∧ NameTag.greeting y = some g) := by
  constructor
  · intro x h
    refine ⟨_, connectOp_default x h, ?_⟩
    cases x with
    | mk a sh l r b => exact greeting_after_set a sh l (r + 1) true "Hello"
  · intro x g hg hne
    refine ⟨_, connectOp_keep x g hg hne, ?_⟩
    rw [greeting_connected]
    exact hg

/-- Witness for claim C2 at concrete inputs: a fresh element with no
greeting defaults to Hello, and an element carrying Hola keeps it. -/
theorem claim_C2_attach_default_witness :
    (∃ y, connectOp newNameTag = some y ∧ NameTag.greeting y = some "Hello")
    ∧ (∃ y, connectOp holaTag = some y ∧ NameTag.greeting y = some "Hola") :=
  ⟨claim_C2_attach_default.1 newNameTag (Or.inl (by decide)),
   claim_C2_attach_default.2 holaTag "Hola" (by decide) (by decide)⟩

/-- Claim C3: after any render, the markup of the render root is the fixed
three-region structure: a header region carrying the uppercased greeting
and the static caption "my name is", a body region with a single
content-projection point, and an empty footer region; in particular an
element attached with greeting Hola has rendered header text HOLA. -/
theorem claim_C3_render_structure :
    (∀ (x : NameTag) (n : String) (o nv : Option String) (y : NameTag),
        attributeChangedCallback x n o nv = some y →
        ∃ g, NameTag.greeting x = some g ∧ y.shadowHTML = threeRegions g)
    ∧ slotCountCI bodyRegion = 1
    ∧ footerInnerOf footerRegion = some ""
    ∧ (∃ x, attach (some "Hola") = some x
        ∧ headerTextOf x.shadowHTML = some "HOLA"
        ∧ captionTextOf x.shadowHTML = some "my name is") := by
  refine ⟨?_, by decide, by decide, ?_⟩
  · intro x n o nv y h
    unfold attributeChangedCallback render at h
    cases hg : NameTag.greeting x with
    | none =>
        rw [hg] at h
        simp at h
    | some g =>
        rw [hg] at h
        simp only [Option.map_some', Option.some.injEq] at h
        refine ⟨g, rfl, ?_⟩
        rw [← h]
        exact renderHTML_eq_threeRegions g
  · refine ⟨_, attach_some_eq "Hola" (by decide), by decide, by decide⟩

/-- Witness for claim C3: the change notification on a concrete element
carrying greeting Hola renders the three-region markup for Hola. -/
theorem claim_C3_render_structure_witness :
    ∃ g, NameTag.greeting holaTag = some g ∧ holaRendered.shadowHTML = threeRegions g :=
  claim_C3_render_structure.1 holaTag "greeting" none (some "Hola") holaRendered (by rfl)

/-- Claim C4: every greeting change replaces the entire render root markup
with the render of the current state, regardless of what the root held
before, so external mutations of the root are discarded; concretely,
changing greeting from Hola to Bonjour after attachment updates the header
text to BONJOUR and keeps the caption "my name is" the same text as
before. -/
theorem claim_C4_full_replace :
    (∀ (x : NameTag) (h v : String),
        (setGreeting { x with shadowHTML := h } v).map (fun y => y.shadowHTML)
          = some (renderHTML v))
    ∧ (∃ x y, attach (some "Hola") = some x ∧ setGreeting x "Bonjour" = some y
        ∧ headerTextOf x.shadowHTML = some "HOLA"
        ∧ headerTextOf y.shadowHTML = some "BONJOUR"
        ∧ captionTextOf x.shadowHTML = some "my name is"
        ∧ captionTextOf y.shadowHTML = some "my name is") := by
  constructor
  · intro x h v
    rw [setGreeting_eq]
    rfl
  · refine ⟨_, _, attach_some_eq "Hola" (by decide), setGreeting_eq _ "Bonjour",
           by decide, ?_, by decide, ?_⟩
    · show headerTextOf (renderHTML "Bonjour") = some "BONJOUR"
      decide
    · show captionTextOf (renderHTML "Bonjour") = some "my name is"
      decide

/-- Claim C5: attaching an instance whose greeting is absent or empty
assigns the default through the ordinary change reaction exactly once: the
render count grows by exactly one during attachment and the rendered
header text afterwards is HELLO. -/
theorem claim_C5_default_renders_once (x : NameTag)
    (h : NameTag.greeting x = none ∨ NameTag.greeting x = some "") :
    ∃ y, connectOp x = some y ∧ y.renderCount = x.renderCount + 1
      ∧ y.shadowHTML = renderHTML "Hello"
      ∧ headerTextOf y.shadowHTML = some "HELLO" := by
  refine ⟨_, connectOp_default x h, rfl, rfl, ?_⟩
  show headerTextOf (renderHTML "Hello") = some "HELLO"
  decide

/-- Witness for claim C5: a fresh element with no greeting renders exactly
once during attachment, showing HELLO. -/
theorem claim_C5_default_renders_once_witness :
    ∃ y, connectOp newNameTag = some y ∧ y.renderCount = newNameTag.renderCount + 1
      ∧ y.shadowHTML = renderHTML "Hello"
      ∧ headerTextOf y.shadowHTML = some "HELLO" :=
  claim_C5_default_renders_once newNameTag (Or.inl (by decide))

/-- Counterexample to claim C6 as stated: attach an element with no
greeting (so the default Hello is assigned), then set the greeting
property to the empty string; the greeting is now the empty string, so it
is not true that the greeting is never empty after attachment. -/
theorem claim_C6_counterexample :
    ((attach none).bind fun x => runSets x [""]).map (fun y => NameTag.greeting y)
      = some (some "") := by
  decide

/-- Claim C6 amended: after attachment the greeting is set and non-empty
(the default Hello is assigned when none was supplied), and under every
sequence of subsequent greeting sets it always remains set, though a later
explicit write of the empty string is accepted and leaves it empty. -/
theorem claim_C6_amended_never_unset (init : Option String) :
    ∃ x0 g0, attach init = some x0 ∧ NameTag.greeting x0 = some g0 ∧ g0 ≠ ""
      ∧ ∀ vs, ∃ y g2, runSets x0 vs = some y ∧ NameTag.greeting y = some g2 := by
  cases init with
  | none =>
      refine ⟨_, "Hello", attach_none_eq, rfl, by decide, ?_⟩
      intro vs
      obtain ⟨y, g2, hy, hgy, _, _, _⟩ :=
        runSets_invariant vs { attrs := [("greeting", "Hello")],
                               shadowHTML := renderHTML "Hello",
                               adoptedSheets := [styles], renderCount := 1,
                               connected := true } "Hello" rfl rfl
      exact ⟨y, g2, hy, hgy⟩
  | some v =>
      by_cases hv : v = ""
      · subst hv
        refine ⟨_, "Hello", attach_empty_eq, rfl, by decide, ?_⟩
        intro vs
        obtain ⟨y, g2, hy, hgy, _, _, _⟩ :=
          runSets_invariant vs { attrs := [("greeting", "Hello")],
                                 shadowHTML := renderHTML "Hello",
                                 adoptedSheets := [styles], renderCount := 2,
                                 connected := true } "Hello" rfl rfl
        exact ⟨y, g2, hy, hgy⟩
      · refine ⟨_, v, attach_some_eq v hv, rfl, hv, ?_⟩
        intro vs
        obtain ⟨y, g2, hy, hgy, _, _, _⟩ :=
          runSets_invariant vs { attrs := [("greeting", v)],
                                 shadowHTML := renderHTML v,
                                 adoptedSheets := [styles], renderCount := 1,
                                 connected := true } v rfl rfl
        exact ⟨y, g2, hy, hgy⟩

/-- Counterexample to claim C7 as stated: the change reaction is not total
over all attribute states; on an element whose greeting attribute is
absent it fails, because render uppercases the null attribute value. -/
theorem claim_C7_counterexample :
    attributeChangedCallback newNameTag "greeting" (some "x") none = none := by
  rfl

/-- Claim C7 amended: construction, property get and set, attachment and
arbitrary set sequences are total, and the change reaction succeeds
whenever the greeting attribute is present; its only failing inputs are
states with the greeting attribute absent, which the element's own
lifecycle never produces since the reaction always runs just after the
attribute was written. -/
theorem claim_C7_amended_totality :
    (∀ (x : NameTag) (v : String), (setGreeting x v).isSome = true)
    ∧ (∀ x : NameTag, (connectOp x).isSome = true)
    ∧ (∀ init : Option String, (attach init).isSome = true)
    ∧ (∀ (x : NameTag) (vs : List String), (runSets x vs).isSome = true)
    ∧ (∀ (x : NameTag) (n : String) (o nv : Option String),
        NameTag.greeting x ≠ none →
        (attributeChangedCallback x n o nv).isSome = true) := by
  have hset : ∀ (x : NameTag) (v : String), (setGreeting x v).isSome = true := by
    intro x v
    rw [setGreeting_eq]
    rfl
  have hconn : ∀ x : NameTag, (connectOp x).isSome = true := by
    intro x
    match h : NameTag.greeting x with
    | none =>
        rw [connectOp_default x (Or.inl h)]
        rfl
    | some g =>
        by_cases hg : g = ""
        · subst hg
          rw [connectOp_default x (Or.inr h)]
          rfl
        · rw [connectOp_keep x g h hg]
          rfl
  have hrun : ∀ (vs : List String) (x : NameTag), (runSets x vs).isSome = true := by
    intro vs
    induction vs with
    | nil => intro x; rfl
    | cons v t ih =>
        intro x
        show (List.foldlM setGreeting x (v :: t)).isSome = true
        rw [List.foldlM_cons, setGreeting_eq]
        exact ih _
  refine ⟨hset, hconn, ?_, fun x vs => hrun vs x, ?_⟩
  · intro init
    cases init with
    | none => exact hconn newNameTag
    | some v =>
        show ((setAttributeOp newNameTag "greeting" v).bind connectOp).isSome = true
        rw [show setAttributeOp newNameTag "greeting" v = setGreeting newNameTag v from rfl,
            setGreeting_eq]
        exact hconn _
  · intro x n o nv h
    unfold attributeChangedCallback render
    cases hg : NameTag.greeting x with
    | none => exact absurd hg h
    | some g => rfl

/-- Witness for claim C7 amended: the change reaction succeeds on a
concrete element whose greeting attribute is present. -/
theorem claim_C7_amended_totality_witness :
    (attributeChangedCallback holaTag "greeting" none (some "Hola")).isSome = true :=
  claim_C7_amended_totality.2.2.2.2 holaTag "greeting" none (some "Hola") (by decide)

/-- Counterexample to claim C8 as stated: the render root does not contain
exactly one content-projection point at every moment from construction
onward.  A freshly constructed element has an empty render root with no
slot at all, and because the greeting is interpolated unescaped, attaching
an element whose greeting itself carries slot markup yields a root with
two slot tags. -/
theorem claim_C8_counterexample :
    slotCountCI newNameTag.shadowHTML = 0
    ∧ ((attach (some "<slot></slot>")).map fun y => slotCountCI y.shadowHTML)
        = some 2 := by
  constructor
  · decide
  · decide

/-- Claim C8 amended: from the first render onward (the freshly
constructed, never-rendered root is empty), as long as no greeting value
uppercases to text containing slot markup, the render root contains
exactly one content-projection point, and re-rendering neither duplicates
nor loses it: after attachment and after every further sequence of
greeting sets the slot count of the root is exactly one.  The side
condition constrains the uppercased text that is interpolated into the
markup, so it does not depend on the uppercase map: with any map in place
of jsToUpper, a value whose image contains no slot tag keeps the count at
one.  Every intermediate state is the final state of a prefix of the
sequence, so this covers all times after attachment. -/
theorem claim_C8_amended_single_slot (init : Option String) (vs : List String)
    (hinit : ∀ v, init = some v → slotCountCI (jsToUpper v) = 0)
    (hvs : ∀ v, v ∈ vs → slotCountCI (jsToUpper v) = 0) :
    ∃ x0 y, attach init = some x0 ∧ slotCountCI x0.shadowHTML = 1
      ∧ runSets x0 vs = some y ∧ slotCountCI y.shadowHTML = 1 := by
  have hm : ∀ (x0 : NameTag) (g : String), NameTag.greeting x0 = some g →
      x0.shadowHTML = renderHTML g → slotCountCI (jsToUpper g) = 0 →
      ∃ y, runSets x0 vs = some y ∧ slotCountCI y.shadowHTML = 1 := by
    intro x0 g hg hsh hslot
    obtain ⟨y, g2, hy, _, hshy, hmem, _⟩ := runSets_invariant vs x0 g hg hsh
    refine ⟨y, hy, ?_⟩
    rw [hshy, slotCountCI_renderHTML]
    rcases hmem with h | h
    · rw [h, hslot]
    · rw [hvs g2 h]
  cases init with
  | none =>
      obtain ⟨y, hy, hcount⟩ := hm { attrs := [("greeting", "Hello")],
                                     shadowHTML := renderHTML "Hello",
                                     adoptedSheets := [styles], renderCount := 1,
                                     connected := true } "Hello" rfl rfl (by decide)
      refine ⟨_, y, attach_none_eq, ?_, hy, hcount⟩
      show slotCountCI (renderHTML "Hello") = 1
      rw [slotCountCI_renderHTML,
          show slotCountCI (jsToUpper "Hello") = 0 from by decide]
  | some v =>
      by_cases hv : v = ""
      · subst hv
        obtain ⟨y, hy, hcount⟩ := hm { attrs := [("greeting", "Hello")],
                                       shadowHTML := renderHTML "Hello",
                                       adoptedSheets := [styles], renderCount := 2,
                                       connected := true } "Hello" rfl rfl (by decide)
        refine ⟨_, y, attach_empty_eq, ?_, hy, hcount⟩
        show slotCountCI (renderHTML "Hello") = 1
        rw [slotCountCI_renderHTML,
            show slotCountCI (jsToUpper "Hello") = 0 from by decide]
      · have hv0 : slotCountCI (jsToUpper v) = 0 := hinit v rfl
        obtain ⟨y, hy, hcount⟩ := hm { attrs := [("greeting", v)],
                                       shadowHTML := renderHTML v,
                                       adoptedSheets := [styles], renderCount := 1,
                                       connected := true } v rfl rfl hv0
        refine ⟨_, y, attach_some_eq v hv, ?_, hy, hcount⟩
        show slotCountCI (renderHTML v) = 1
        rw [slotCountCI_renderHTML, hv0]

/-- Witness for claim C8 amended: attaching with greeting Hola and then
setting Bonjour keeps exactly one slot in the render root throughout. -/
theorem claim_C8_amended_single_slot_witness :
    ∃ x0 y, attach (some "Hola") = some x0 ∧ slotCountCI x0.shadowHTML = 1
      ∧ runSets x0 ["Bonjour"] = some y ∧ slotCountCI y.shadowHTML = 1 :=
  claim_C8_amended_single_slot (some "Hola") ["Bonjour"]
    (fun v hv => by
      injection hv with h
      rw [← h]
      decide)
    (fun v hv => by
      have h : v = "Bonjour" := by simpa using hv
      rw [h]
      decide)

/-- Claim C9: the style sheet object is constructed exactly once per
process lifetime, at module load; constructing instances allocates no
further sheet and every instance adopts the same shared object; neither
attachment nor any sequence of greeting writes ever changes the adopted
sheet list, and the sheet text stays as defined at load. -/
theorem claim_C9_styles_singleton :
    hostAfterLoad.sheetAllocs = 1
    ∧ styles.cssText = stylesCSS
    ∧ (∀ h : Host, (constructNameTag h).1 = h)
    ∧ (∀ h : Host, (constructNameTag h).2.adoptedSheets = [styles])
    ∧ (∀ x : NameTag, (connectOp x).map (fun y => y.adoptedSheets) = some x.adoptedSheets)
    ∧ (∀ (x : NameTag) (v : String),
        (setGreeting x v).map (fun y => y.adoptedSheets) = some x.adoptedSheets)
    ∧ (∀ (x : NameTag) (vs : List String),
        (runSets x vs).map (fun y => y.adoptedSheets) = some x.adoptedSheets) := by
  refine ⟨rfl, rfl, fun h => rfl, fun h => rfl, connectOp_sheets, ?_, fun x vs => runSets_sheets vs x⟩
  intro x v
  rw [setGreeting_eq]
  rfl

/-- Claim C10: the render function interpolates the uppercased greeting
verbatim into the template with no escaping or sanitization, so markup
characters in a greeting enter the output as raw markup and are not
escaped. -/
theorem claim_C10_no_escaping :
    (∀ (x : NameTag) (s : String), NameTag.greeting x = some s →
        render x = some (renderPre ++ jsToUpper s ++ renderPost))
    ∧ containsSub (renderHTML "a<b>c") "A<B>C" = true
    ∧ containsSub (renderHTML "a<b>c") "&lt;" = false
    ∧ renderHTML "a<b>c" ≠ renderPre ++ htmlEscape (jsToUpper "a<b>c") ++ renderPost := by
  refine ⟨?_, by decide, by decide, by decide⟩
  intro x s h
  unfold render
  rw [h]
  rfl

/-- Witness for claim C10: the render of a concrete element carrying
greeting Hola is the raw interpolation of HOLA into the template. -/
theorem claim_C10_no_escaping_witness :
    render holaTag = some (renderPre ++ jsToUpper "Hola" ++ renderPost) :=
  claim_C10_no_escaping.1 holaTag "Hola" (by decide)
